import Mathlib

/-
Verification of the diagnostics logger module (src/tools/diagnostics/src/lib.rs).

The module is a two-mode logger: a human-readable mode writing styled text to
the standard error stream, and a GitHub-annotations mode writing annotation
lines to the standard output stream.  The embedding below mirrors the Rust
source: the format enumeration with its string projections, the logger with
its four logging operations, and the process-wide once-initialized slot.

Output modelling: each logging operation performs exactly one println or
eprintln call in the source; here it returns the list of writes performed,
each write carrying the target stream and the written line (without the
trailing newline).  Human-mode lines are represented at the styling-stripped
level: the console crate wraps styled fragments in ANSI escape codes that do
not alter the stripped text, so `styleText` below is the stripped rendering
of `console::style(s)` with any color or bold modifiers applied.
-/

namespace Diagnostics

/-- The `LogFormat` enumeration of the source: `Human` and `GitHub`
(the latter is called GitHubAnnotations in the spec). -/
inductive LogFormat where
  | Human
  | GitHub
deriving DecidableEq

/-- The `#[default]` attribute of the Rust derive puts the default on `Human`. -/
def LogFormat.default : LogFormat := LogFormat.Human

/-- Mirrors `LogFormat::as_str`. -/
def LogFormat.as_str : LogFormat → String
  | LogFormat.Human => "human"
  | LogFormat.GitHub => "github"

/-- Mirrors `LogFormat::variants`. -/
def LogFormat.variants : List String := ["human", "github"]

/-- ASCII lowercasing of one character: bytes in the range of capital A to
capital Z are shifted by 32, every other character is left unchanged.  This is
the per-character behaviour of the Rust `to_ascii_lowercase`. -/
def asciiToLower (c : Char) : Char :=
  if 'A' ≤ c ∧ c ≤ 'Z' then Char.ofNat (c.toNat + 32) else c

/-- Mirrors `str::to_ascii_lowercase`, applied character by character.  ASCII
bytes occur in UTF-8 only as stand-alone characters, so the byte-level Rust
operation coincides with this character-level map. -/
def to_ascii_lowercase (s : String) : String :=
  String.mk (s.data.map asciiToLower)

/-- Mirrors `LogFormat::from_str`: match on the ASCII-lowercased input; the
error message interpolates the lowercased string (the `other` binder of the
Rust match) and `variants().join(", ")`. -/
def LogFormat.from_str (s : String) : Except String LogFormat :=
  if to_ascii_lowercase s = "human" then Except.ok LogFormat.Human
  else if to_ascii_lowercase s = "github" then Except.ok LogFormat.GitHub
  else if to_ascii_lowercase s = "gh" then Except.ok LogFormat.GitHub
  else Except.error
    ("invalid diagnostics format '" ++ to_ascii_lowercase s ++
      "'. expected one of: " ++ String.intercalate ", " LogFormat.variants)

/-- The two process output streams a write can target. -/
inductive OutStream where
  | stdout
  | stderr
deriving DecidableEq

/-- One write performed by a logging operation: the target stream and the
written line, without the trailing newline. -/
structure Write where
  stream : OutStream
  line : String
deriving DecidableEq

/-- Styling-stripped rendering of `console::style(s)` with modifiers: the ANSI
escape codes wrap the text and stripping them recovers exactly `s`. -/
def styleText (s : String) : String := s

/-- The `Logger` struct: holds the active format. -/
structure Logger where
  format : LogFormat
deriving DecidableEq

/-- Mirrors `Logger::new`. -/
def Logger.new (format : LogFormat) : Logger := ⟨format⟩

/-- Mirrors `Logger::is_human`. -/
def Logger.is_human (l : Logger) : Bool := l.format == LogFormat.Human

/-- Mirrors `Logger::info`: human mode eprintln of the bare message, GitHub
mode println of the bare message. -/
def Logger.info (l : Logger) (message : String) : List Write :=
  match l.format with
  | LogFormat.Human => [⟨OutStream.stderr, message⟩]
  | LogFormat.GitHub => [⟨OutStream.stdout, message⟩]

/-- Mirrors `Logger::warn`: human mode writes the styled label, a space and
the message to stderr; GitHub mode writes the annotation line to stdout. -/
def Logger.warn (l : Logger) (message : String) : List Write :=
  match l.format with
  | LogFormat.Human =>
      [⟨OutStream.stderr, styleText "warning:" ++ " " ++ message⟩]
  | LogFormat.GitHub => [⟨OutStream.stdout, "::warning::" ++ message⟩]

/-- Mirrors `Logger::error`. -/
def Logger.error (l : Logger) (message : String) : List Write :=
  match l.format with
  | LogFormat.Human =>
      [⟨OutStream.stderr, styleText "error:" ++ " " ++ message⟩]
  | LogFormat.GitHub => [⟨OutStream.stdout, "::error::" ++ message⟩]

/-- Mirrors `Logger::error_with_context`.  The human format string of the
source is "{}{} {}": the styled label, then the context string (empty, or the
bracketed frames each styled and joined by " > "), then one space, then the
message — note there is no separator between the label and the context
string.  GitHub mode prefixes the joined frames and ": " to the message when
frames are present. -/
def Logger.error_with_context (l : Logger) (context : List String)
    (message : String) : List Write :=
  match l.format with
  | LogFormat.Human =>
      [⟨OutStream.stderr,
        styleText "error:" ++
          (if context.isEmpty then "" else
            "[" ++ String.intercalate " > " (List.map styleText context) ++ "]") ++
          " " ++ message⟩]
  | LogFormat.GitHub =>
      [⟨OutStream.stdout,
        "::error::" ++
          (if context.isEmpty then message else
            String.intercalate " > " context ++ ": " ++ message)⟩]

/-- The process-wide `OnceLock<Logger>` slot, modelled as explicit state:
empty, or holding the installed logger. -/
abbrev GlobalState := Option Logger

/-- Mirrors `init`: `LOGGER.set` stores the logger only when the slot is
empty; the result of `set` is discarded, so an occupied slot is untouched and
no failure is reported. -/
def init (format : LogFormat) (st : GlobalState) : GlobalState :=
  match st with
  | some l => some l
  | none => some (Logger.new format)

/-- Mirrors `logger`: `LOGGER.get_or_init` returns the stored logger,
installing one with the default format first when the slot is empty. -/
def logger (st : GlobalState) : Logger × GlobalState :=
  match st with
  | some l => (l, some l)
  | none => (Logger.new LogFormat.default, some (Logger.new LogFormat.default))

namespace log

/-- Mirrors the free function `log::info`. -/
def info (message : String) (st : GlobalState) : List Write × GlobalState :=
  ((logger st).fst.info message, (logger st).snd)

/-- Mirrors the free function `log::warn`. -/
def warn (message : String) (st : GlobalState) : List Write × GlobalState :=
  ((logger st).fst.warn message, (logger st).snd)

/-- Mirrors the free function `log::error`. -/
def error (message : String) (st : GlobalState) : List Write × GlobalState :=
  ((logger st).fst.error message, (logger st).snd)

/-- Mirrors the free function `log::error_with_context`. -/
def error_with_context (context : List String) (message : String)
    (st : GlobalState) : List Write × GlobalState :=
  ((logger st).fst.error_with_context context message, (logger st).snd)

/-- Mirrors the free function `log::is_human`. -/
def is_human (st : GlobalState) : Bool × GlobalState :=
  ((logger st).fst.is_human, (logger st).snd)

end log

/-- Mapping styling over a list of frames leaves the stripped text of each
frame unchanged. -/
theorem map_styleText (l : List String) : List.map styleText l = l :=
  List.map_id l

/-- Claim C1, counterexample: with frames build and link and the message
undefined symbol, the human-mode styling-stripped line is not
"error: [build > link] undefined symbol" — the source format string "{}{} {}"
puts no space between the error label and the bracketed context. -/
theorem c1_counterexample :
    (Logger.new LogFormat.Human).error_with_context ["build", "link"] "undefined symbol" ≠
      [⟨OutStream.stderr, "error: [build > link] undefined symbol"⟩] := by
  decide

/-- Claim C1 (amended): for a human-mode logger and a non-empty frame list,
error_with_context writes one line to the stderr stream whose
styling-stripped text is the label "error:", immediately followed (with no
separating space) by the bracketed frame list joined by " > ", then one space
and the message. -/
theorem c1_human_error_context_line (f0 : String) (fs : List String) (m : String) :
    (Logger.new LogFormat.Human).error_with_context (f0 :: fs) m =
      [⟨OutStream.stderr,
        styleText "error:" ++ ("[" ++ String.intercalate " > " (f0 :: fs) ++ "]") ++
          " " ++ m⟩] := by
  show [(⟨OutStream.stderr,
      styleText "error:" ++
        ("[" ++ String.intercalate " > " (List.map styleText (f0 :: fs)) ++ "]") ++
        " " ++ m⟩ : Write)] = _
  rw [map_styleText]

/-- Claim C2, counterexample: parsing "XML" fails, but the error message
interpolates the lowercased input, so it does not contain the offending
string as given by the caller. -/
theorem c2_counterexample :
    LogFormat.from_str "XML" =
      Except.error "invalid diagnostics format 'xml'. expected one of: human, github" ∧
    ¬∃ a b, "invalid diagnostics format 'xml'. expected one of: human, github" =
      a ++ "XML" ++ b := by
  refine ⟨rfl, ?_⟩
  rintro ⟨a, b, h⟩
  have hx : 'X' ∈ (a ++ "XML" ++ b).data := by
    rw [String.data_append, String.data_append]
    exact List.mem_append.mpr (Or.inl (List.mem_append.mpr (Or.inr (by decide))))
  rw [← h] at hx
  exact absurd hx (by decide)

/-- Claim C2 (amended): for every input whose ASCII-lowercased form is none of
human, github, gh, parsing fails, and the error message contains both the
ASCII-lowercased form of the input (rather than the input as given) and the
literal substring "human, github". -/
theorem c2_error_message_contents (s : String)
    (h1 : to_ascii_lowercase s ≠ "human")
    (h2 : to_ascii_lowercase s ≠ "github")
    (h3 : to_ascii_lowercase s ≠ "gh") :
    LogFormat.from_str s = Except.error
      ("invalid diagnostics format '" ++ to_ascii_lowercase s ++
        "'. expected one of: " ++ String.intercalate ", " LogFormat.variants) ∧
    (∃ a b, ("invalid diagnostics format '" ++ to_ascii_lowercase s ++
        "'. expected one of: " ++ String.intercalate ", " LogFormat.variants) =
      a ++ to_ascii_lowercase s ++ b) ∧
    (∃ a b, ("invalid diagnostics format '" ++ to_ascii_lowercase s ++
        "'. expected one of: " ++ String.intercalate ", " LogFormat.variants) =
      a ++ "human, github" ++ b) := by
  refine ⟨?_, ?_, ?_⟩
  · unfold LogFormat.from_str
    rw [if_neg h1, if_neg h2, if_neg h3]
  · exact ⟨"invalid diagnostics format '",
      "'. expected one of: " ++ String.intercalate ", " LogFormat.variants,
      String.append_assoc _ _ _⟩
  · exact ⟨"invalid diagnostics format '" ++ to_ascii_lowercase s ++
      "'. expected one of: ", "", by
        rw [show String.intercalate ", " LogFormat.variants = "human, github" from rfl,
          String.append_empty]⟩

/-- Witness for the amended claim C2 at the concrete input "xml". -/
theorem c2_witness :
    (to_ascii_lowercase "xml" ≠ "human" ∧ to_ascii_lowercase "xml" ≠ "github" ∧
      to_ascii_lowercase "xml" ≠ "gh") ∧
    (LogFormat.from_str "xml" = Except.error
      ("invalid diagnostics format '" ++ to_ascii_lowercase "xml" ++
        "'. expected one of: " ++ String.intercalate ", " LogFormat.variants) ∧
    (∃ a b, ("invalid diagnostics format '" ++ to_ascii_lowercase "xml" ++
        "'. expected one of: " ++ String.intercalate ", " LogFormat.variants) =
      a ++ to_ascii_lowercase "xml" ++ b) ∧
    (∃ a b, ("invalid diagnostics format '" ++ to_ascii_lowercase "xml" ++
        "'. expected one of: " ++ String.intercalate ", " LogFormat.variants) =
      a ++ "human, github" ++ b)) :=
  ⟨⟨by decide, by decide, by decide⟩,
    c2_error_message_contents "xml" (by decide) (by decide) (by decide)⟩

/-- Claim C3: for a GitHub-annotations logger, warn writes exactly the line
"::warning::" plus the message to standard output, error writes exactly
"::error::" plus the message, and error_with_context with non-empty frames
writes exactly "::error::" plus the frames joined by " > ", then ": ", then
the message. -/
theorem c3_github_exact_lines (m : String) (f0 : String) (fs : List String) :
    (Logger.new LogFormat.GitHub).warn m = [⟨OutStream.stdout, "::warning::" ++ m⟩] ∧
    (Logger.new LogFormat.GitHub).error m = [⟨OutStream.stdout, "::error::" ++ m⟩] ∧
    (Logger.new LogFormat.GitHub).error_with_context (f0 :: fs) m =
      [⟨OutStream.stdout,
        "::error::" ++ (String.intercalate " > " (f0 :: fs) ++ ": " ++ m)⟩] :=
  ⟨rfl, rfl, rfl⟩

/-- Claim C4: the global slot has first-write-wins semantics — init on an
occupied slot leaves it unchanged and reports nothing, init on the empty slot
installs a logger with the given format, a second init is a no-op, later
global logging calls and the is_human query use the first installed format,
and a global access with no prior installation installs the Human default. -/
theorem c4_first_write_wins (f f' : LogFormat) (l : Logger) (m : String) :
    init f' (some l) = some l ∧
    init f (none : GlobalState) = some (Logger.new f) ∧
    init f' (init f (none : GlobalState)) = init f (none : GlobalState) ∧
    (logger (init f (none : GlobalState))).fst = Logger.new f ∧
    (log.error m (init f (none : GlobalState))).fst = (Logger.new f).error m ∧
    (log.is_human (init f (none : GlobalState))).fst = (Logger.new f).is_human ∧
    logger (none : GlobalState) =
      (Logger.new LogFormat.Human, some (Logger.new LogFormat.Human)) :=
  ⟨rfl, rfl, rfl, rfl, rfl, rfl, rfl⟩

/-- Claim C5: parsing is case-insensitive and total on its accepted set — for
every string, parsing yields Human exactly when the ASCII-lowercased input is
"human", yields GitHub exactly when it is "github" or "gh", succeeds exactly
on those three lowercased forms, and the six sample inputs parse to the
expected variants. -/
theorem c5_parse_case_insensitive (s : String) :
    (LogFormat.from_str s = Except.ok LogFormat.Human ↔
      to_ascii_lowercase s = "human") ∧
    (LogFormat.from_str s = Except.ok LogFormat.GitHub ↔
      (to_ascii_lowercase s = "github" ∨ to_ascii_lowercase s = "gh")) ∧
    ((∃ f, LogFormat.from_str s = Except.ok f) ↔
      (to_ascii_lowercase s = "human" ∨ to_ascii_lowercase s = "github" ∨
        to_ascii_lowercase s = "gh")) ∧
    LogFormat.from_str "human" = Except.ok LogFormat.Human ∧
    LogFormat.from_str "HUMAN" = Except.ok LogFormat.Human ∧
    LogFormat.from_str "github" = Except.ok LogFormat.GitHub ∧
    LogFormat.from_str "GitHub" = Except.ok LogFormat.GitHub ∧
    LogFormat.from_str "gh" = Except.ok LogFormat.GitHub ∧
    LogFormat.from_str "GH" = Except.ok LogFormat.GitHub := by
  refine ⟨?_, ?_, ?_, rfl, rfl, rfl, rfl, rfl, rfl⟩ <;>
    · unfold LogFormat.from_str
      split_ifs with h1 h2 h3 <;> simp_all

/-- Claim C6: round-trip normalization — whenever parsing succeeds, rendering
the parsed variant gives its canonical lowercase name, which is "human" when
the lowercased input was "human" and "github" otherwise; in particular the
alias gh normalizes to github. -/
theorem c6_roundtrip (s : String) (f : LogFormat)
    (h : LogFormat.from_str s = Except.ok f) :
    f.as_str = if to_ascii_lowercase s = "human" then "human" else "github" := by
  unfold LogFormat.from_str at h
  split_ifs at h with h1 h2 h3
  · injection h with hf
    subst hf
    rw [if_pos h1]
    rfl
  · injection h with hf
    subst hf
    rw [if_neg h1]
    rfl
  · injection h with hf
    subst hf
    rw [if_neg h1]
    rfl

/-- Witness for claim C6 at the concrete alias "gh", which parses to GitHub
and renders as "github". -/
theorem c6_witness :
    LogFormat.GitHub.as_str =
      if to_ascii_lowercase "gh" = "human" then "human" else "github" :=
  c6_roundtrip "gh" LogFormat.GitHub rfl

/-- Claim C7: in both modes, error_with_context with an empty frame list
produces output identical to error — the same writes, stream and bytes. -/
theorem c7_empty_context_eq_error (f : LogFormat) (m : String) :
    (Logger.new f).error_with_context [] m = (Logger.new f).error m := by
  cases f <;> rfl

/-- Claim C8: every call to info, warn, error or error_with_context performs
exactly one write, to the stderr stream in Human mode and to the stdout
stream in GitHub mode — never both streams and never neither. -/
theorem c8_single_write_stream (f : LogFormat) (m : String) (ctx : List String) :
    ((Logger.new f).info m).map Write.stream =
      [if f = LogFormat.Human then OutStream.stderr else OutStream.stdout] ∧
    ((Logger.new f).warn m).map Write.stream =
      [if f = LogFormat.Human then OutStream.stderr else OutStream.stdout] ∧
    ((Logger.new f).error m).map Write.stream =
      [if f = LogFormat.Human then OutStream.stderr else OutStream.stdout] ∧
    ((Logger.new f).error_with_context ctx m).map Write.stream =
      [if f = LogFormat.Human then OutStream.stderr else OutStream.stdout] := by
  cases f <;> exact ⟨rfl, rfl, rfl, rfl⟩

/-- Claim C9: is_human returns true exactly when the configured format is the
Human variant, both for explicitly constructed loggers and for any logger
value, and the default-initialized global logger reports is_human true. -/
theorem c9_is_human (f : LogFormat) (l : Logger) :
    ((Logger.new f).is_human = true ↔ f = LogFormat.Human) ∧
    (l.is_human = true ↔ l.format = LogFormat.Human) ∧
    (log.is_human (none : GlobalState)).fst = true := by
  refine ⟨?_, ?_, rfl⟩
  · cases f <;> simp [Logger.is_human, Logger.new]
  · simp [Logger.is_human]

/-- Claim C10: parse acceptance is characterized by ASCII-only case folding —
parsing succeeds exactly when the ASCII-lowercased input is one of human,
github, gh; inputs matching an alias only under non-ASCII letterforms, such
as the fullwidth spellings below, are rejected. -/
theorem c10_ascii_case_folding (s : String) :
    ((LogFormat.from_str s).isOk = true ↔
      to_ascii_lowercase s ∈ (["human", "github", "gh"] : List String)) ∧
    (LogFormat.from_str "ＧＨ").isOk = false ∧
    (LogFormat.from_str "Ｈｕｍａｎ").isOk = false := by
  refine ⟨?_, rfl, rfl⟩
  unfold LogFormat.from_str
  split_ifs with h1 h2 h3 <;> simp_all [Except.isOk, Except.toBool]

end Diagnostics
